import Mathlib

/-
Verification of the Zaphnath content resolver (src-tauri/src/main.rs).

The resolver is shallowly embedded: filesystem state is an explicit `FS`
value (directories plus files whose contents are either a parsed JSON value
or unparseable text), paths are lists of segments, and each Rust function
becomes a Lean function over that state.  Functions that perform file reads
additionally return the list of file paths they read, so that "no read was
attempted" is a provable statement.  Machine integers are modelled as `Nat`
with explicit `% 2 ^ 32` where the Rust code casts (`num as u32`).
-/

namespace Zaphnath

/-! ## JSON values (model of `serde_json::Value`)

`serde_json` stores a number as `PosInt (u64)`, `NegInt (i64)` or
`Float (f64)`.  `as_u64` succeeds exactly on the `PosInt` case; floats and
negative integers give `None`.  A non-integral number is modelled by the
payload-free `float` constructor, which is faithful for every operation the
resolver performs on it (`as_u64` and `as_str` are `none`). -/

inductive JsonNum where
  | posInt (n : Nat)
  | negInt (n : Int)
  | float

inductive Json where
  | null
  | bool (b : Bool)
  | num (n : JsonNum)
  | str (s : String)
  | arr (elems : List Json)
  | obj (fields : List (String × Json))

/-- `serde_json::Value::as_u64`: `Some` exactly for a nonnegative integer
representable in a `u64`. -/
def Json.as_u64 : Json → Option Nat
  | .num (.posInt n) => if n < 2 ^ 64 then some n else none
  | _ => none

/-- `serde_json::Value::as_str`: `Some` exactly for a JSON string. -/
def Json.as_str : Json → Option String
  | .str s => some s
  | _ => none

/-! ## Record types (the `#[derive(Deserialize)]` structs of main.rs) -/

structure Verse where
  verse : String
  text : String
deriving DecidableEq

structure Chapter where
  chapter : Json
  verses : List Verse

structure BookFile where
  book : String
  book_amharic : Option String
  chapters : List Chapter

structure TranslationInfo where
  id : String
  name : String
  year : Option Nat
  folder : String

structure LanguageInfo where
  code : String
  name : String
  translations : List TranslationInfo

structure BookInfo where
  name : String
  abbr : String
  chapters : Nat

/-! ## Serde-derive deserialization, modelled

Derived deserialization reads an object, looks each field up by name
(unknown fields are ignored, a missing `Option` field is `None`, a field
marked `#[serde(default)]` falls back to the default value —
`Value::Null` for `serde_json::Value`), and fails on a shape mismatch. -/

def getField (fields : List (String × Json)) (name : String) : Option Json :=
  (fields.find? (fun f => f.1 == name)).map (fun f => f.2)

def parseString : Json → Option String
  | .str s => some s
  | _ => none

/-- Deserializing an `Option<String>` field: absent or `null` is `None`,
a string is `Some`, anything else is a shape error. -/
def parseOptString : Option Json → Option (Option String)
  | none => some none
  | some .null => some none
  | some (.str s) => some (some s)
  | some _ => none

/-- Deserializing a `u16`. -/
def parseU16 : Json → Option Nat
  | .num (.posInt n) => if n < 2 ^ 16 then some n else none
  | _ => none

/-- Deserializing an `Option<u16>` field (`year`). -/
def parseOptU16 : Option Json → Option (Option Nat)
  | none => some none
  | some .null => some none
  | some v => (parseU16 v).map some

/-- Deserializing a `u32`. -/
def parseU32 : Json → Option Nat
  | .num (.posInt n) => if n < 2 ^ 32 then some n else none
  | _ => none

def parseJsonList (p : Json → Option α) : List Json → Option (List α)
  | [] => some []
  | x :: xs => do
      let a ← p x
      let rest ← parseJsonList p xs
      pure (a :: rest)

/-- Deserializing a `Vec<T>`. -/
def parseListWith (p : Json → Option α) : Json → Option (List α)
  | .arr xs => parseJsonList p xs
  | _ => none

def parseVerse : Json → Option Verse
  | .obj fields => do
      let v ← getField fields "verse" >>= parseString
      let t ← getField fields "text" >>= parseString
      pure ⟨v, t⟩
  | _ => none

/-- `Chapter`: the `chapter` field is `#[serde(default)] serde_json::Value`,
so an absent field deserializes to `Value::Null` and a present field of any
JSON shape is accepted verbatim. -/
def parseChapter : Json → Option Chapter
  | .obj fields => do
      let verses ← getField fields "verses" >>= parseListWith parseVerse
      pure ⟨(getField fields "chapter").getD Json.null, verses⟩
  | _ => none

def parseBookFile : Json → Option BookFile
  | .obj fields => do
      let book ← getField fields "book" >>= parseString
      let amh ← parseOptString (getField fields "book_amharic")
      let chapters ← getField fields "chapters" >>= parseListWith parseChapter
      pure ⟨book, amh, chapters⟩
  | _ => none

def parseTranslationInfo : Json → Option TranslationInfo
  | .obj fields => do
      let id ← getField fields "id" >>= parseString
      let name ← getField fields "name" >>= parseString
      let year ← parseOptU16 (getField fields "year")
      let folder ← getField fields "folder" >>= parseString
      pure ⟨id, name, year, folder⟩
  | _ => none

def parseLanguageInfo : Json → Option LanguageInfo
  | .obj fields => do
      let code ← getField fields "code" >>= parseString
      let name ← getField fields "name" >>= parseString
      let translations ← getField fields "translations" >>= parseListWith parseTranslationInfo
      pure ⟨code, name, translations⟩
  | _ => none

def parseBookInfo : Json → Option BookInfo
  | .obj fields => do
      let name ← getField fields "name" >>= parseString
      let abbr ← getField fields "abbr" >>= parseString
      let chapters ← getField fields "chapters" >>= parseU32
      pure ⟨name, abbr, chapters⟩
  | _ => none

/-! ## Filesystem model

A path is its list of segments (`PathBuf::join` appends a segment).  A file
entry's content is `some v` when the file holds text that parses as the JSON
value `v`, and `none` when the text is not well-formed JSON.  `exists()` in
Rust is true for a directory or a file of that name. -/

abbrev FsPath := List String

structure FS where
  dirs : List FsPath
  files : List (FsPath × Option Json)

/-- `fs::read_to_string`, fused with JSON parsing of the raw text: `none`
when the file is missing, `some none` when it holds malformed text,
`some (some v)` when it holds well-formed JSON `v`. -/
def FS.fileContent (fs : FS) (p : FsPath) : Option (Option Json) :=
  (fs.files.find? (fun e => e.1 == p)).map (fun e => e.2)

/-- `Path::exists`. -/
def FS.pathExists (fs : FS) (p : FsPath) : Bool :=
  fs.dirs.contains p || fs.files.any (fun e => e.1 == p)

/-- `Path::display`, for error messages. -/
def pathToString (p : FsPath) : String := String.intercalate "/" p

/-- Model of `str::to_lowercase` (character-wise; agrees with Rust on the
ASCII abbreviations the content tree uses). -/
def strToLower (s : String) : String := ⟨s.data.map Char.toLower⟩

/-! ## Error messages (main.rs builds errors as formatted strings) -/

/-- Placeholder for the OS-specific `io::Error` display text. -/
def ioErrorDetail : String := "os error"

/-- Placeholder for the serde-specific parse-diagnostic text. -/
def parseErrorDetail : String := "invalid JSON"

/-- `FileReadError`: `format!("Failed to read file '{}': {}", path, e)`. -/
def fileReadErrorMsg (p : FsPath) : String :=
  "Failed to read file '" ++ pathToString p ++ "': " ++ ioErrorDetail

/-- `ParseError`: `format!("Failed to parse JSON from '{}': {}", path, e)`. -/
def parseErrorMsg (p : FsPath) : String :=
  "Failed to parse JSON from '" ++ pathToString p ++ "': " ++ parseErrorDetail

/-- `ContentRootNotFound`:
`format!("Public directory not found at: {}", public_dir.display())`. -/
def contentRootNotFoundMsg (p : FsPath) : String :=
  "Public directory not found at: " ++ pathToString p

/-- `BookFileNotFound`:
`format!("Book file not found for '{}' in {}/{}/json/", book_abbr, language_code, translation_folder)`. -/
def bookFileNotFoundMsg (book_abbr language_code translation_folder : String) : String :=
  "Book file not found for '" ++ book_abbr ++ "' in " ++ language_code ++ "/" ++
    translation_folder ++ "/json/"

/-- `ChapterNotFound`:
`format!("Chapter {} not found in book file for {}", chapter_number, book_abbr)`. -/
def chapterNotFoundMsg (chapter_number : Nat) (book_abbr : String) : String :=
  "Chapter " ++ Nat.repr chapter_number ++ " not found in book file for " ++ book_abbr

/-! ## The resolver operations

Each operation returns its Rust result together with the list of file paths
it read (`fs::read_to_string` calls), in order. -/

/-- `read_json_file::<T>`: read the file, then deserialize; read failure and
parse failure carry the path.  The target shape `T` is passed as its
deserializer. -/
def read_json_file (parse : Json → Option α) (fs : FS) (p : FsPath) :
    Except String α × List FsPath :=
  match fs.fileContent p with
  | none => (.error (fileReadErrorMsg p), [p])
  | some none => (.error (parseErrorMsg p), [p])
  | some (some v) =>
      match parse v with
      | none => (.error (parseErrorMsg p), [p])
      | some a => (.ok a, [p])

/-- `get_public_dir`: the mode-dependent root path is taken as a parameter
(`../public` in development, `resource_dir/public` packaged); the function
checks the path exists and otherwise errors.  Performs no reads. -/
def get_public_dir (fs : FS) (public_dir : FsPath) : Except String FsPath :=
  if fs.pathExists public_dir then .ok public_dir
  else .error (contentRootNotFoundMsg public_dir)

/-- `get_translations_manifest`. -/
def get_translations_manifest (fs : FS) (public_dir : FsPath) :
    Except String (List LanguageInfo) × List FsPath :=
  match get_public_dir fs public_dir with
  | .error e => (.error e, [])
  | .ok root =>
      read_json_file (parseListWith parseLanguageInfo) fs (root ++ ["translations_manifest.json"])

/-- `get_book_manifest`. -/
def get_book_manifest (fs : FS) (public_dir : FsPath)
    (language_code translation_folder : String) :
    Except String (List BookInfo) × List FsPath :=
  match get_public_dir fs public_dir with
  | .error e => (.error e, [])
  | .ok root =>
      read_json_file (parseListWith parseBookInfo) fs
        (root ++ [language_code, translation_folder, "manifest.json"])

/-- The first candidate path tried by `load_book_file`:
`<root>/<language_code>/<translation_folder>/json/<lowercased abbr>.json`. -/
def lowercaseCandidate (root : FsPath) (language_code translation_folder book_abbr : String) :
    FsPath :=
  root ++ [language_code, translation_folder, "json", strToLower book_abbr ++ ".json"]

/-- The second candidate path tried by `load_book_file`:
`<root>/<language_code>/<translation_folder>/json/<abbr as given>.json`. -/
def exactCandidate (root : FsPath) (language_code translation_folder book_abbr : String) :
    FsPath :=
  root ++ [language_code, translation_folder, "json", book_abbr ++ ".json"]

/-- `load_book_file`: resolve the root, probe the lowercase candidate by a
stat, load it if present; else probe the exact-case candidate, load it if
present; else `BookFileNotFound`. -/
def load_book_file (fs : FS) (public_dir : FsPath)
    (language_code translation_folder book_abbr : String) :
    Except String (FsPath × BookFile) × List FsPath :=
  match get_public_dir fs public_dir with
  | .error e => (.error e, [])
  | .ok root =>
      let lowercase_path := lowercaseCandidate root language_code translation_folder book_abbr
      if fs.pathExists lowercase_path then
        match read_json_file parseBookFile fs lowercase_path with
        | (.ok book_data, tr) => (.ok (lowercase_path, book_data), tr)
        | (.error e, tr) => (.error e, tr)
      else
        let exact_path := exactCandidate root language_code translation_folder book_abbr
        if fs.pathExists exact_path then
          match read_json_file parseBookFile fs exact_path with
          | (.ok book_data, tr) => (.ok (exact_path, book_data), tr)
          | (.error e, tr) => (.error e, tr)
        else
          (.error (bookFileNotFoundMsg book_abbr language_code translation_folder), [])

/-- The chapter test applied by the loop of `get_chapter_content`: the
stored identity, read `as_u64` and cast `as u32`, equals the request, or the
stored identity, read `as_str`, equals the request's decimal string. -/
def chapterMatches (chapter_number : Nat) (chapter_str : String) (c : Chapter) : Bool :=
  (match c.chapter.as_u64 with
   | some num => num % 2 ^ 32 == chapter_number
   | none => false) ||
  (match c.chapter.as_str with
   | some s => s == chapter_str
   | none => false)

/-- The `for chapter in &book_data.chapters` loop: first match wins. -/
def findChapterVerses (chapter_number : Nat) (chapter_str : String) :
    List Chapter → Option (List Verse)
  | [] => none
  | c :: rest =>
      if chapterMatches chapter_number chapter_str c then some c.verses
      else findChapterVerses chapter_number chapter_str rest

/-- `get_chapter_content`: load the book file, then scan its chapters in
stored order for the requested number (`chapter_number : u32`, modelled as a
`Nat` below `2 ^ 32`). -/
def get_chapter_content (fs : FS) (public_dir : FsPath)
    (language_code translation_folder book_abbr : String) (chapter_number : Nat) :
    Except String (List Verse) × List FsPath :=
  match load_book_file fs public_dir language_code translation_folder book_abbr with
  | (.error e, tr) => (.error e, tr)
  | (.ok (_, book_data), tr) =>
      let chapter_str := Nat.repr chapter_number
      match findChapterVerses chapter_number chapter_str book_data.chapters with
      | some verses => (.ok verses, tr)
      | none => (.error (chapterNotFoundMsg chapter_number book_abbr), tr)

/-! ## String containment (for statements about error-message contents) -/

def charsPrefix : List Char → List Char → Bool
  | [], _ => true
  | _ :: _, [] => false
  | a :: as, b :: bs => a == b && charsPrefix as bs

def charsInfix (sub : List Char) : List Char → Bool
  | [] => charsPrefix sub []
  | b :: bs => charsPrefix sub (b :: bs) || charsInfix sub bs

/-- `strContains s sub` is true when `sub` occurs contiguously in `s`. -/
def strContains (s sub : String) : Bool := charsInfix sub.data s.data

/-! ## Helper lemmas -/

/-- A path with a file entry exists (`stat` succeeds). -/
theorem FS.pathExists_of_fileContent {fs : FS} {p : FsPath} {c : Option Json}
    (h : fs.fileContent p = some c) : fs.pathExists p = true := by
  unfold FS.fileContent at h
  unfold FS.pathExists
  cases hf : fs.files.find? (fun e => e.1 == p) with
  | none => rw [hf] at h; simp at h
  | some e =>
      have hm := List.mem_of_find?_eq_some hf
      have hp := List.find?_some hf
      simp only [Bool.or_eq_true, List.any_eq_true]
      exact Or.inr ⟨e, hm, hp⟩

/-- Reading a present, well-parsing file succeeds and reads exactly it. -/
theorem read_json_file_ok {α : Type} {parse : Json → Option α} {fs : FS} {p : FsPath}
    {j : Json} {a : α} (hc : fs.fileContent p = some (some j)) (hp : parse j = some a) :
    read_json_file parse fs p = (.ok a, [p]) := by
  simp [read_json_file, hc, hp]

/-- Reading a present file whose text is not well-formed JSON is a parse error. -/
theorem read_json_file_malformed {α : Type} {parse : Json → Option α} {fs : FS} {p : FsPath}
    (hc : fs.fileContent p = some none) :
    read_json_file parse fs p = (.error (parseErrorMsg p), [p]) := by
  simp [read_json_file, hc]

/-- Reading a present file whose JSON does not match the target shape is a
parse error. -/
theorem read_json_file_bad_shape {α : Type} {parse : Json → Option α} {fs : FS} {p : FsPath}
    {j : Json} (hc : fs.fileContent p = some (some j)) (hp : parse j = none) :
    read_json_file parse fs p = (.error (parseErrorMsg p), [p]) := by
  simp [read_json_file, hc, hp]

/-- `load_book_file` through the lowercase candidate. -/
theorem load_book_file_lowercase {fs : FS} {pd : FsPath} {lc tf abbr : String}
    {j : Json} {bf : BookFile} (hroot : fs.pathExists pd = true)
    (hc : fs.fileContent (lowercaseCandidate pd lc tf abbr) = some (some j))
    (hp : parseBookFile j = some bf) :
    load_book_file fs pd lc tf abbr =
      (.ok (lowercaseCandidate pd lc tf abbr, bf), [lowercaseCandidate pd lc tf abbr]) := by
  have hex := FS.pathExists_of_fileContent hc
  simp [load_book_file, get_public_dir, hroot, hex, read_json_file_ok hc hp]

/-- `load_book_file` through the exact-case candidate. -/
theorem load_book_file_exact {fs : FS} {pd : FsPath} {lc tf abbr : String}
    {j : Json} {bf : BookFile} (hroot : fs.pathExists pd = true)
    (hlow : fs.pathExists (lowercaseCandidate pd lc tf abbr) = false)
    (hc : fs.fileContent (exactCandidate pd lc tf abbr) = some (some j))
    (hp : parseBookFile j = some bf) :
    load_book_file fs pd lc tf abbr =
      (.ok (exactCandidate pd lc tf abbr, bf), [exactCandidate pd lc tf abbr]) := by
  have hex := FS.pathExists_of_fileContent hc
  simp [load_book_file, get_public_dir, hroot, hlow, hex, read_json_file_ok hc hp]

/-- A scan over chapters none of which match fails. -/
theorem findChapterVerses_none {n : Nat} {s : String} {l : List Chapter}
    (h : ∀ c ∈ l, chapterMatches n s c = false) :
    findChapterVerses n s l = none := by
  induction l with
  | nil => rfl
  | cons c rest ih =>
      have hc := h c (List.mem_cons_self c rest)
      have hrest := ih fun c' hc' => h c' (List.mem_cons_of_mem c hc')
      simp [findChapterVerses, hc, hrest]

/-- The scan returns the first matching chapter's verses. -/
theorem findChapterVerses_first {n : Nat} {s : String} {l1 l2 : List Chapter} {c : Chapter}
    (h1 : ∀ c' ∈ l1, chapterMatches n s c' = false)
    (hc : chapterMatches n s c = true) :
    findChapterVerses n s (l1 ++ c :: l2) = some c.verses := by
  induction l1 with
  | nil => simp [findChapterVerses, hc]
  | cons d rest ih =>
      have hd := h1 d (List.mem_cons_self d rest)
      have hrest := ih fun c' hc' => h1 c' (List.mem_cons_of_mem d hc')
      simp [findChapterVerses, hd, hrest]

/-! ## Claims -/

/-- C1, counterexample: a book whose single chapter's stored identity is the
JSON number `4294967301 = 2 ^ 32 + 5` — an integer different from the
request `5` by a multiple of `2 ^ 32` — is nevertheless returned for the
request `5`, because the code compares `num as u32 == chapter_number`. -/
def c1Json : Json :=
  .obj [("book", .str "Genesis"),
        ("chapters", .arr [.obj [("chapter", .num (.posInt 4294967301)),
                                 ("verses", .arr [.obj [("verse", .str "1"),
                                                        ("text", .str "A")]])]])]

def c1FS : FS := ⟨[["public"]], [(["public", "eng", "KJV", "json", "gen.json"], some c1Json)]⟩

/-- C1: refuted as stated.  The stored numeric identity `4294967301` is not
equal to the requested number `5`, yet `get_chapter_content` returns that
chapter's verses: matching is by the `u64` value truncated to `u32`, not by
integer equality. -/
theorem c1_counterexample :
    (get_chapter_content c1FS ["public"] "eng" "KJV" "gen" 5).1 =
      Except.ok [⟨"1", "A"⟩] ∧ (4294967301 : Nat) ≠ 5 := by
  exact ⟨rfl, by decide⟩

/-- C1, amended: a chapter whose stored identity is a JSON number matches
the requested number exactly when the stored value is a nonnegative integer
representable in a `u64` whose truncation to `u32` (value modulo `2 ^ 32`)
equals the requested number. -/
theorem c1_numeric_match_is_mod_u32 (jn : JsonNum) (vs : List Verse) (n : Nat) (s : String) :
    chapterMatches n s ⟨Json.num jn, vs⟩ = true ↔
      ∃ m, jn = JsonNum.posInt m ∧ m < 2 ^ 64 ∧ m % 2 ^ 32 = n := by
  cases jn with
  | posInt m =>
      have hm : chapterMatches n s ⟨Json.num (JsonNum.posInt m), vs⟩ =
          (decide (m < 2 ^ 64) && decide (m % 2 ^ 32 = n)) := by
        unfold chapterMatches Json.as_u64 Json.as_str
        dsimp only
        by_cases h : m < 2 ^ 64
        · have h' : m < 18446744073709551616 := h
          rw [if_pos h]
          simp only [decide_eq_true h', Bool.true_and]
          by_cases hmn : m % 4294967296 = n
          · simp [hmn, h']
          · simp [hmn, h']
        · have h' : ¬ m < 18446744073709551616 := h
          rw [if_neg h]
          simp [h']
      rw [hm]
      simp
  | negInt m => simp [chapterMatches, Json.as_u64, Json.as_str]
  | float => simp [chapterMatches, Json.as_u64, Json.as_str]

/-- C1, amended, witness: the truncated stored value `4294967301` matches
request `5` and `4294967301 % 2 ^ 32 = 5`. -/
theorem c1_numeric_match_witness :
    chapterMatches 5 "5" ⟨Json.num (JsonNum.posInt 4294967301), []⟩ = true :=
  (c1_numeric_match_is_mod_u32 (JsonNum.posInt 4294967301) [] 5 "5").mpr
    ⟨4294967301, rfl, by decide, by decide⟩

/-- C3, counterexample: with neither candidate file present for `"1Ch"`, the
error reports the abbreviation and the searched directory but contains
neither attempted filename (`1ch.json`, `1Ch.json`). -/
def c3FS : FS := ⟨[["public"]], []⟩

/-- C3: refuted as stated.  `load_book_file` fails with the
`BookFileNotFound` message, but that message does not name either attempted
filename; it names only the abbreviation as given and the searched
directory. -/
theorem c3_counterexample :
    load_book_file c3FS ["public"] "eng" "KJV" "1Ch" =
      (.error "Book file not found for '1Ch' in eng/KJV/json/", []) ∧
    strContains "Book file not found for '1Ch' in eng/KJV/json/" "1ch.json" = false ∧
    strContains "Book file not found for '1Ch' in eng/KJV/json/" "1Ch.json" = false ∧
    strContains "Book file not found for '1Ch' in eng/KJV/json/" "eng/KJV/json/" = true :=
  ⟨rfl, rfl, rfl, rfl⟩

/-- C3, amended: when neither candidate exists, `load_book_file` fails with
the `BookFileNotFound` message, which reports the book abbreviation as given
and the searched `<language>/<translation>/json/` directory (not the two
attempted filenames), and performs no file read. -/
theorem c3_not_found_reports_abbr_and_dir (fs : FS) (pd : FsPath) (lc tf abbr : String)
    (hroot : fs.pathExists pd = true)
    (hlow : fs.pathExists (lowercaseCandidate pd lc tf abbr) = false)
    (hexact : fs.pathExists (exactCandidate pd lc tf abbr) = false) :
    load_book_file fs pd lc tf abbr = (.error (bookFileNotFoundMsg abbr lc tf), []) := by
  simp [load_book_file, get_public_dir, hroot, hlow, hexact]

/-- C3, amended, witness. -/
theorem c3_not_found_witness :
    load_book_file c3FS ["public"] "eng" "KJV" "1Ch" =
      (.error (bookFileNotFoundMsg "1Ch" "eng" "KJV"), []) :=
  c3_not_found_reports_abbr_and_dir c3FS ["public"] "eng" "KJV" "1Ch" rfl rfl rfl

/-- C7, counterexample: the root existence check is `Path::exists`, which is
satisfied by a plain file; here `public` exists only as a file (it has a
file entry and is in no directory list), yet `get_public_dir` succeeds
instead of failing with `ContentRootNotFound`. -/
def c7FS : FS := ⟨[], [(["public"], none)]⟩

/-- C7: refuted as stated.  The resolver does not require the root to be a
directory: a filesystem in which the root path exists as a plain file still
passes the check. -/
theorem c7_counterexample :
    get_public_dir c7FS ["public"] = .ok ["public"] ∧
    c7FS.dirs.contains ["public"] = false ∧
    c7FS.fileContent ["public"] = some none :=
  ⟨rfl, rfl, rfl⟩

/-- C7, amended: the resolver requires the root path to exist (file or
directory; the check is an existence stat, not a directory check), failing
with `ContentRootNotFound` carrying the attempted path otherwise; and when
the root does not exist, all three queries fail with that error with no
file read attempted (empty read trace). -/
theorem c7_missing_root_fails_all_queries (fs : FS) (pd : FsPath)
    (lc tf abbr : String) (n : Nat) (h : fs.pathExists pd = false) :
    get_public_dir fs pd = .error (contentRootNotFoundMsg pd) ∧
    get_translations_manifest fs pd = (.error (contentRootNotFoundMsg pd), []) ∧
    get_book_manifest fs pd lc tf = (.error (contentRootNotFoundMsg pd), []) ∧
    get_chapter_content fs pd lc tf abbr n = (.error (contentRootNotFoundMsg pd), []) := by
  have hg : get_public_dir fs pd = .error (contentRootNotFoundMsg pd) := by
    unfold get_public_dir
    rw [h]
    simp
  refine ⟨hg, ?_, ?_, ?_⟩
  · unfold get_translations_manifest
    rw [hg]
  · unfold get_book_manifest
    rw [hg]
  · unfold get_chapter_content load_book_file
    rw [hg]

/-- C7, amended, witness: on an empty filesystem every query fails with the
root error and reads nothing. -/
theorem c7_missing_root_witness :
    get_public_dir ⟨[], []⟩ ["public"] = .error (contentRootNotFoundMsg ["public"]) ∧
    get_translations_manifest ⟨[], []⟩ ["public"] =
      (.error (contentRootNotFoundMsg ["public"]), []) ∧
    get_book_manifest ⟨[], []⟩ ["public"] "eng" "KJV" =
      (.error (contentRootNotFoundMsg ["public"]), []) ∧
    get_chapter_content ⟨[], []⟩ ["public"] "eng" "KJV" "gen" 1 =
      (.error (contentRootNotFoundMsg ["public"]), []) :=
  c7_missing_root_fails_all_queries ⟨[], []⟩ ["public"] "eng" "KJV" "gen" 1 rfl

/-- C2: `load_book_file` tries the lowercased-abbreviation filename first
and loads it when it exists; only when that candidate does not exist does it
build and load the exact-case filename, so a (well-formed) book file under
either convention is resolved successfully. -/
theorem c2_lookup_prefers_lowercase (fs : FS) (pd : FsPath) (lc tf abbr : String)
    (j : Json) (bf : BookFile) (hroot : fs.pathExists pd = true) :
    (fs.fileContent (lowercaseCandidate pd lc tf abbr) = some (some j) →
      parseBookFile j = some bf →
      load_book_file fs pd lc tf abbr =
        (.ok (lowercaseCandidate pd lc tf abbr, bf), [lowercaseCandidate pd lc tf abbr])) ∧
    (fs.pathExists (lowercaseCandidate pd lc tf abbr) = false →
      fs.fileContent (exactCandidate pd lc tf abbr) = some (some j) →
      parseBookFile j = some bf →
      load_book_file fs pd lc tf abbr =
        (.ok (exactCandidate pd lc tf abbr, bf), [exactCandidate pd lc tf abbr])) :=
  ⟨fun hc hp => load_book_file_lowercase hroot hc hp,
   fun hlow hc hp => load_book_file_exact hroot hlow hc hp⟩

def c2GenJson : Json := .obj [("book", .str "Genesis"), ("chapters", .arr [])]

def c2GenBF : BookFile := ⟨"Genesis", none, []⟩

def c2GenFS : FS :=
  ⟨[["public"]], [(["public", "eng", "AMH", "json", "gen.json"], some c2GenJson)]⟩

def c2ChJson : Json := .obj [("book", .str "1 Chronicles"), ("chapters", .arr [])]

def c2ChBF : BookFile := ⟨"1 Chronicles", none, []⟩

def c2ChFS : FS :=
  ⟨[["public"]], [(["public", "eng", "KJV", "json", "1Ch.json"], some c2ChJson)]⟩

/-- C2, witness: `"Gen"` with only `gen.json` present resolves via the
lowercase candidate; `"1Ch"` with only `1Ch.json` present resolves via the
exact-case candidate. -/
theorem c2_lookup_witness :
    load_book_file c2GenFS ["public"] "eng" "AMH" "Gen" =
      (.ok (lowercaseCandidate ["public"] "eng" "AMH" "Gen", c2GenBF),
       [lowercaseCandidate ["public"] "eng" "AMH" "Gen"]) ∧
    load_book_file c2ChFS ["public"] "eng" "KJV" "1Ch" =
      (.ok (exactCandidate ["public"] "eng" "KJV" "1Ch", c2ChBF),
       [exactCandidate ["public"] "eng" "KJV" "1Ch"]) :=
  ⟨(c2_lookup_prefers_lowercase c2GenFS ["public"] "eng" "AMH" "Gen"
      c2GenJson c2GenBF rfl).1 rfl rfl,
   (c2_lookup_prefers_lowercase c2ChFS ["public"] "eng" "KJV" "1Ch"
      c2ChJson c2ChBF rfl).2 rfl rfl rfl⟩

/-- C4: `get_chapter_content` scans the chapters in stored order and returns
the verses of the first chapter that matches; every earlier chapter does not
match, and later chapters (even also-matching ones) are ignored. -/
theorem c4_first_match_wins (fs : FS) (pd : FsPath) (lc tf abbr : String)
    (n : Nat) (j : Json) (bf : BookFile) (l1 l2 : List Chapter) (c : Chapter)
    (hn : n < 2 ^ 32)
    (hroot : fs.pathExists pd = true)
    (hc : fs.fileContent (lowercaseCandidate pd lc tf abbr) = some (some j))
    (hp : parseBookFile j = some bf)
    (hl : bf.chapters = l1 ++ c :: l2)
    (h1 : ∀ c' ∈ l1, chapterMatches n (Nat.repr n) c' = false)
    (hm : chapterMatches n (Nat.repr n) c = true) :
    get_chapter_content fs pd lc tf abbr n =
      (.ok c.verses, [lowercaseCandidate pd lc tf abbr]) := by
  unfold get_chapter_content
  rw [load_book_file_lowercase hroot hc hp]
  dsimp only
  rw [hl, findChapterVerses_first h1 hm]

def c4Ch1 : Chapter := ⟨.num (.posInt 1), [⟨"1", "one"⟩]⟩

def c4Ch5num : Chapter := ⟨.num (.posInt 5), [⟨"1", "num five"⟩]⟩

def c4Ch5str : Chapter := ⟨.str "5", [⟨"1", "text five"⟩]⟩

def c4Json : Json :=
  .obj [("book", .str "Genesis"),
        ("chapters", .arr
          [.obj [("chapter", .num (.posInt 1)),
                 ("verses", .arr [.obj [("verse", .str "1"), ("text", .str "one")]])],
           .obj [("chapter", .num (.posInt 5)),
                 ("verses", .arr [.obj [("verse", .str "1"), ("text", .str "num five")]])],
           .obj [("chapter", .str "5"),
                 ("verses", .arr [.obj [("verse", .str "1"), ("text", .str "text five")]])]])]

def c4BF : BookFile := ⟨"Genesis", none, [c4Ch1, c4Ch5num, c4Ch5str]⟩

def c4FS : FS :=
  ⟨[["public"]], [(["public", "eng", "KJV", "json", "gen.json"], some c4Json)]⟩

/-- C4, witness: with a non-matching chapter `1` first and then both a
numeric-valued chapter `5` and a text-valued chapter `"5"`, a request for
`5` returns the earlier (numeric) chapter's verses. -/
theorem c4_first_match_witness :
    get_chapter_content c4FS ["public"] "eng" "KJV" "gen" 5 =
      (.ok c4Ch5num.verses, [lowercaseCandidate ["public"] "eng" "KJV" "gen"]) :=
  c4_first_match_wins c4FS ["public"] "eng" "KJV" "gen" 5 c4Json c4BF
    [c4Ch1] [c4Ch5str] c4Ch5num (by decide) rfl rfl rfl rfl (by decide) (by decide)

def c5Json : Json :=
  .obj [("book", .str "Genesis"),
        ("chapters", .arr
          [.obj [("chapter", .str "5"),
                 ("verses", .arr [.obj [("verse", .str "1"), ("text", .str "text five")]])]])]

def c5FS : FS :=
  ⟨[["public"]], [(["public", "eng", "KJV", "json", "gen.json"], some c5Json)]⟩

/-- C5: a chapter whose stored identity is a JSON string matches exactly
when that string equals the decimal-string form of the requested number;
and concretely, a book storing its chapter identity as the text `"5"`
returns that chapter's verses for a request of `5`. -/
theorem c5_text_match (s : String) (vs : List Verse) (n : Nat) :
    (chapterMatches n (Nat.repr n) ⟨Json.str s, vs⟩ = true ↔ s = Nat.repr n) ∧
    (get_chapter_content c5FS ["public"] "eng" "KJV" "gen" 5).1 =
      .ok [⟨"1", "text five"⟩] := by
  constructor
  · unfold chapterMatches Json.as_u64 Json.as_str
    dsimp only
    simp
  · rfl

/-- C5, witness: the textual-representation match at `"5"` and request `5`. -/
theorem c5_text_match_witness :
    chapterMatches 5 (Nat.repr 5) ⟨Json.str "5", []⟩ = true :=
  (c5_text_match "5" [] 5).1.mpr rfl

/-- C6: when a candidate book file exists but holds malformed text or JSON
that does not match the `BookFile` shape, `load_book_file` fails with the
`ParseError` of the JSON record loader for that candidate's path, never with
`BookFileNotFound` (the existence stat succeeded). -/
theorem c6_existing_malformed_is_parse_error (fs : FS) (pd : FsPath) (lc tf abbr : String)
    (content : Option Json) (hroot : fs.pathExists pd = true)
    (hbad : content = none ∨ ∃ j, content = some j ∧ parseBookFile j = none) :
    (fs.fileContent (lowercaseCandidate pd lc tf abbr) = some content →
      load_book_file fs pd lc tf abbr =
        (.error (parseErrorMsg (lowercaseCandidate pd lc tf abbr)),
         [lowercaseCandidate pd lc tf abbr])) ∧
    (fs.pathExists (lowercaseCandidate pd lc tf abbr) = false →
      fs.fileContent (exactCandidate pd lc tf abbr) = some content →
      load_book_file fs pd lc tf abbr =
        (.error (parseErrorMsg (exactCandidate pd lc tf abbr)),
         [exactCandidate pd lc tf abbr])) := by
  constructor
  · intro hc
    have hex := FS.pathExists_of_fileContent hc
    have hread : read_json_file parseBookFile fs (lowercaseCandidate pd lc tf abbr) =
        (.error (parseErrorMsg (lowercaseCandidate pd lc tf abbr)),
         [lowercaseCandidate pd lc tf abbr]) := by
      rcases hbad with h0 | ⟨j, hj, hpj⟩
      · rw [h0] at hc
        exact read_json_file_malformed hc
      · rw [hj] at hc
        exact read_json_file_bad_shape hc hpj
    simp [load_book_file, get_public_dir, hroot, hex, hread]
  · intro hlow hc
    have hex := FS.pathExists_of_fileContent hc
    have hread : read_json_file parseBookFile fs (exactCandidate pd lc tf abbr) =
        (.error (parseErrorMsg (exactCandidate pd lc tf abbr)),
         [exactCandidate pd lc tf abbr]) := by
      rcases hbad with h0 | ⟨j, hj, hpj⟩
      · rw [h0] at hc
        exact read_json_file_malformed hc
      · rw [hj] at hc
        exact read_json_file_bad_shape hc hpj
    simp [load_book_file, get_public_dir, hroot, hlow, hex, hread]

def c6FS1 : FS := ⟨[["public"]], [(["public", "eng", "KJV", "json", "gen.json"], none)]⟩

def c6FS2 : FS :=
  ⟨[["public"]], [(["public", "eng", "KJV", "json", "1Ch.json"], some (Json.str "nope"))]⟩

/-- C6, witness: a malformed lowercase candidate and a wrongly-shaped
exact-case candidate both surface as `ParseError` for the existing path. -/
theorem c6_parse_error_witness :
    load_book_file c6FS1 ["public"] "eng" "KJV" "gen" =
      (.error (parseErrorMsg (lowercaseCandidate ["public"] "eng" "KJV" "gen")),
       [lowercaseCandidate ["public"] "eng" "KJV" "gen"]) ∧
    load_book_file c6FS2 ["public"] "eng" "KJV" "1Ch" =
      (.error (parseErrorMsg (exactCandidate ["public"] "eng" "KJV" "1Ch")),
       [exactCandidate ["public"] "eng" "KJV" "1Ch"]) :=
  ⟨(c6_existing_malformed_is_parse_error c6FS1 ["public"] "eng" "KJV" "gen"
      none rfl (Or.inl rfl)).1 rfl,
   (c6_existing_malformed_is_parse_error c6FS2 ["public"] "eng" "KJV" "1Ch"
      (some (Json.str "nope")) rfl (Or.inr ⟨Json.str "nope", rfl, rfl⟩)).2 rfl rfl⟩

/-- C8: when no chapter of the resolved book file matches the requested
number under either representation, `get_chapter_content` fails with the
`ChapterNotFound` message, which reports the requested number (in decimal)
and the book abbreviation. -/
theorem c8_chapter_not_found (fs : FS) (pd : FsPath) (lc tf abbr : String)
    (n : Nat) (j : Json) (bf : BookFile)
    (hn : n < 2 ^ 32)
    (hroot : fs.pathExists pd = true)
    (hc : fs.fileContent (lowercaseCandidate pd lc tf abbr) = some (some j))
    (hp : parseBookFile j = some bf)
    (hnone : ∀ c ∈ bf.chapters, chapterMatches n (Nat.repr n) c = false) :
    get_chapter_content fs pd lc tf abbr n =
      (.error (chapterNotFoundMsg n abbr), [lowercaseCandidate pd lc tf abbr]) := by
  unfold get_chapter_content
  rw [load_book_file_lowercase hroot hc hp]
  dsimp only
  rw [findChapterVerses_none hnone]

def c8Json : Json :=
  .obj [("book", .str "Genesis"),
        ("chapters", .arr
          [.obj [("chapter", .num (.posInt 1)),
                 ("verses", .arr [.obj [("verse", .str "1"), ("text", .str "one")]])]])]

def c8BF : BookFile := ⟨"Genesis", none, [⟨.num (.posInt 1), [⟨"1", "one"⟩]⟩]⟩

def c8FS : FS :=
  ⟨[["public"]], [(["public", "eng", "KJV", "json", "gen.json"], some c8Json)]⟩

/-- C8, witness: requesting chapter `99` of a book that only has chapter `1`
yields the `ChapterNotFound` message for `99` and `"gen"`. -/
theorem c8_chapter_not_found_witness :
    get_chapter_content c8FS ["public"] "eng" "KJV" "gen" 99 =
      (.error (chapterNotFoundMsg 99 "gen"),
       [lowercaseCandidate ["public"] "eng" "KJV" "gen"]) :=
  c8_chapter_not_found c8FS ["public"] "eng" "KJV" "gen" 99 c8Json c8BF
    (by decide) rfl rfl rfl (by decide)

/-- C9: a chapter object with no `chapter` field still deserializes (the
field defaults to JSON null), and a chapter whose stored identity is neither
a `u64`-representable integer nor a string (null, boolean, negative or
fractional number, array, object) matches no requested chapter number. -/
theorem c9_default_null_and_non_scalar_never_matches :
    (∀ (fields : List (String × Json)) (verses : List Verse),
      getField fields "chapter" = none →
      (getField fields "verses" >>= parseListWith parseVerse) = some verses →
      parseChapter (.obj fields) = some ⟨Json.null, verses⟩) ∧
    (∀ (j : Json) (vs : List Verse) (n : Nat) (s : String),
      (∀ m, m < 2 ^ 64 → j ≠ Json.num (JsonNum.posInt m)) →
      (∀ t, j ≠ Json.str t) →
      chapterMatches n s ⟨j, vs⟩ = false) := by
  constructor
  · intro fields verses hch hv
    simp [parseChapter, hv, hch]
  · intro j vs n s hnum hstr
    cases j with
    | null => rfl
    | bool b => rfl
    | num jn =>
        cases jn with
        | posInt m =>
            by_cases h : m < 2 ^ 64
            · exact absurd rfl (hnum m h)
            · unfold chapterMatches Json.as_u64 Json.as_str
              dsimp only
              rw [if_neg h]
              rfl
        | negInt m => rfl
        | float => rfl
    | str t => exact absurd rfl (hstr t)
    | arr xs => rfl
    | obj f => rfl

/-- C9, witness: a `verses`-only chapter object parses with a null identity,
and a null identity matches no request. -/
theorem c9_witness :
    parseChapter (.obj [("verses", Json.arr [])]) = some ⟨Json.null, []⟩ ∧
    chapterMatches 5 "5" ⟨Json.null, []⟩ = false :=
  ⟨c9_default_null_and_non_scalar_never_matches.1 [("verses", Json.arr [])] [] rfl rfl,
   c9_default_null_and_non_scalar_never_matches.2 Json.null [] 5 "5"
     (fun _ _ h => nomatch h) (fun _ h => nomatch h)⟩

/-- C10: for an abbreviation that is already its own lowercasing, the two
candidate paths coincide, so when the (single) candidate does not exist the
lookup fails with `BookFileNotFound` — the exact-case fallback can never
succeed where the lowercase candidate failed. -/
theorem c10_lowercase_fixpoint_single_probe (fs : FS) (pd : FsPath) (lc tf abbr : String)
    (hl : strToLower abbr = abbr) :
    lowercaseCandidate pd lc tf abbr = exactCandidate pd lc tf abbr ∧
    (fs.pathExists pd = true →
      fs.pathExists (lowercaseCandidate pd lc tf abbr) = false →
      load_book_file fs pd lc tf abbr = (.error (bookFileNotFoundMsg abbr lc tf), [])) := by
  have hpaths : lowercaseCandidate pd lc tf abbr = exactCandidate pd lc tf abbr := by
    unfold lowercaseCandidate exactCandidate
    rw [hl]
  refine ⟨hpaths, fun hroot hlow => ?_⟩
  have hexact : fs.pathExists (exactCandidate pd lc tf abbr) = false := hpaths ▸ hlow
  simp [load_book_file, get_public_dir, hroot, hlow, hexact]

def c10FS : FS := ⟨[["public"]], []⟩

/-- C10, witness: for `"gen"` the two candidates are the same path and the
lookup on a tree without it degenerates to a single failing probe. -/
theorem c10_single_probe_witness :
    lowercaseCandidate ["public"] "eng" "KJV" "gen" =
      exactCandidate ["public"] "eng" "KJV" "gen" ∧
    load_book_file c10FS ["public"] "eng" "KJV" "gen" =
      (.error (bookFileNotFoundMsg "gen" "eng" "KJV"), []) :=
  ⟨(c10_lowercase_fixpoint_single_probe c10FS ["public"] "eng" "KJV" "gen" rfl).1,
   (c10_lowercase_fixpoint_single_probe c10FS ["public"] "eng" "KJV" "gen" rfl).2 rfl rfl⟩

end Zaphnath
